import Mathlib

/-!
Verification of the data-access layer in `src/app/actions.ts`
(`nextjs-prisma-mongodb`): a shallow embedding of the six server actions
(`getUsers`, `getPosts`, `getUserById`, `createUser`, `createPost`,
`createComment`) over an explicit relational store, together with proofs
of their documented error-handling, ordering, caching and side-effect
behaviour.

The store (`DB`) holds the three row types; each operation returns an
`OpResult`: the `Except` outcome the caller observes, the store state after
the call, and the ordered list of externally visible effects (cache query
with its strategy, `console.error` log lines, `revalidatePath` signals,
Accelerate tag invalidations).  Unanticipated store failures are injected
through explicit `Option StoreErr` fault parameters, one per fallible call
site that a claim distinguishes.
-/

namespace Actions

/-- A `User` row: id (unique, generated), unique required email, optional
name, server-generated creation timestamp. -/
structure User where
  id : String
  email : String
  name : Option String
  createdAt : Nat
deriving Repr, DecidableEq

/-- A `Post` row: required title, optional content, published flag
(default false), required author foreign key, creation timestamp. -/
structure Post where
  id : String
  title : String
  content : Option String
  published : Bool
  authorId : String
  createdAt : Nat
deriving Repr, DecidableEq

/-- A `Comment` row: required content, required post and author foreign
keys, creation timestamp. -/
structure Comment where
  id : String
  content : String
  postId : String
  authorId : String
  createdAt : Nat
deriving Repr, DecidableEq

/-- The relational store the Prisma client queries. -/
structure DB where
  users : List User
  posts : List Post
  comments : List Comment
deriving Repr, DecidableEq

/-- An error raised by the store itself (a Prisma error object), carrying
the discriminating `code` (`error.code` in the source, e.g. `"P2002"` for a
unique-constraint violation) and a message. -/
structure StoreErr where
  code : String
  message : String
deriving Repr, DecidableEq

/-- The errors a caller of the actions can observe.  `validation`,
`notFound`, `conflict` and `internal` are `new Error(msg)` values thrown by
the action code itself; `store e` is an original store error object that an
action re-threw unchanged (`throw error`). -/
inductive Err where
  | validation (msg : String)
  | notFound (msg : String)
  | conflict (msg : String)
  | internal (msg : String)
  | store (e : StoreErr)
deriving Repr, DecidableEq

/-- The `cacheStrategy` object passed to Prisma Accelerate on a read:
optional `ttl` (fresh window, seconds), optional `swr`
(stale-while-revalidate window, seconds), and invalidation tags. -/
structure CacheStrategy where
  ttl : Option Nat
  swr : Option Nat
  tags : List String
deriving Repr, DecidableEq

/-- Externally visible side effects of an action, in program order. -/
inductive Effect where
  | cacheQuery (strategy : CacheStrategy)
  | logError (msg : String)
  | revalidatePath (path : String)
  | invalidateTags (tags : List String)
deriving Repr, DecidableEq

/-- What an action call produces: the outcome the caller sees, the store
state after the call, and the emitted effects in order. -/
structure OpResult (α : Type) where
  result : Except Err α
  db : DB
  effects : List Effect

/-- `prisma.user.findUnique({where: {id}})`. -/
def findUser (db : DB) (id : String) : Option User :=
  db.users.find? (fun u => u.id == id)

/-- `prisma.post.findUnique({where: {id}})`. -/
def findPost (db : DB) (id : String) : Option Post :=
  db.posts.find? (fun p => p.id == id)

/-- The posts whose `authorId` is `uid` (the `posts` relation of a user). -/
def userPosts (db : DB) (uid : String) : List Post :=
  db.posts.filter (fun p => p.authorId == uid)

/-- The comments whose `authorId` is `uid` (the `comments` relation of a
user). -/
def userComments (db : DB) (uid : String) : List Comment :=
  db.comments.filter (fun c => c.authorId == uid)

/-- The comments whose `postId` is `pid` (the `comments` relation of a
post). -/
def postComments (db : DB) (pid : String) : List Comment :=
  db.comments.filter (fun c => c.postId == pid)

/-- Stable insertion step of the descending sort: `a` goes in front of the
first element with a strictly smaller key (`orderBy: {createdAt: "desc"}`). -/
def insertByDesc (key : α → Nat) (a : α) : List α → List α
  | [] => [a]
  | b :: l => if key b < key a then a :: b :: l else b :: insertByDesc key a l

/-- Sort a list descending by `key` (insertion sort), modelling the store's
`orderBy ... desc`. -/
def sortByDesc (key : α → Nat) : List α → List α
  | [] => []
  | a :: l => insertByDesc key a (sortByDesc key l)

/-- `l` is ordered newest-first with respect to `key`. -/
def SortedByDesc (key : α → Nat) (l : List α) : Prop :=
  l.Pairwise (fun x y => key y ≤ key x)

instance (key : α → Nat) [DecidableEq α] (l : List α) :
    Decidable (SortedByDesc key l) :=
  inferInstanceAs (Decidable (l.Pairwise _))

/-- One element of the `getUsers` result: the user with its included
`posts` relation and `_count` of comments and posts. -/
structure UserListItem where
  user : User
  posts : List Post
  postCount : Nat
  commentCount : Nat
deriving Repr, DecidableEq

/-- A comment with its included `author` relation. -/
structure CommentWithAuthor where
  comment : Comment
  author : Option User
deriving Repr, DecidableEq

/-- One element of the `getPosts` result: the post, its author, its
comments (each with author, newest-first) and the `_count` of comments. -/
structure PostDetail where
  post : Post
  author : Option User
  comments : List CommentWithAuthor
  commentCount : Nat
deriving Repr, DecidableEq

/-- The `getUserById` result: the user, its posts newest-first, its 10 most
recent comments newest-first, and the `_count` of posts and comments. -/
structure UserDetail where
  user : User
  posts : List Post
  comments : List Comment
  postCount : Nat
  commentCount : Nat
deriving Repr, DecidableEq

/-- `cacheStrategy: { ttl: 60, tags: ["users_list"] }` of `getUsers`. -/
def usersCacheStrategy : CacheStrategy :=
  { ttl := some 60, swr := none, tags := ["users_list"] }

/-- `cacheStrategy: { swr: 120, tags: ["posts_list"] }` of `getPosts`. -/
def postsCacheStrategy : CacheStrategy :=
  { ttl := none, swr := some 120, tags := ["posts_list"] }

/-- `cacheStrategy: { ttl: 30, swr: 60, tags: ["user_" + id] }` of
`getUserById`. -/
def userByIdCacheStrategy (id : String) : CacheStrategy :=
  { ttl := some 30, swr := some 60, tags := ["user_" ++ id] }

/-- The record `getUsers` builds for one user row. -/
def mkUserListItem (db : DB) (u : User) : UserListItem :=
  { user := u
    posts := userPosts db u.id
    postCount := (userPosts db u.id).length
    commentCount := (userComments db u.id).length }

/-- `getUsers()`: all users newest-first with posts and counts, under the
60 s fresh-window cache strategy tagged `users_list`; any store failure is
logged and replaced by the generic `Error("Failed to fetch users")`. -/
def getUsers (db : DB) (fault : Option StoreErr) :
    OpResult (List UserListItem) :=
  match fault with
  | some _ =>
    { result := .error (.internal "Failed to fetch users")
      db := db
      effects := [.cacheQuery usersCacheStrategy,
                  .logError "Error fetching users:"] }
  | none =>
    { result := .ok ((sortByDesc (fun u => u.createdAt) db.users).map
        (mkUserListItem db))
      db := db
      effects := [.cacheQuery usersCacheStrategy] }

/-- The record `getPosts` builds for one comment of a post. -/
def mkCommentWithAuthor (db : DB) (c : Comment) : CommentWithAuthor :=
  { comment := c, author := findUser db c.authorId }

/-- The record `getPosts` builds for one post row. -/
def mkPostDetail (db : DB) (p : Post) : PostDetail :=
  { post := p
    author := findUser db p.authorId
    comments := (sortByDesc (fun c => c.createdAt)
      (postComments db p.id)).map (mkCommentWithAuthor db)
    commentCount := (postComments db p.id).length }

/-- `getPosts(limit = 5)`: up to `limit` posts newest-first, each with
author, comments (each with author, newest-first) and comment count, under
the 120 s stale-while-revalidate strategy tagged `posts_list`; any store
failure is logged and replaced by `Error("Failed to fetch posts")`. -/
def getPosts (db : DB) (fault : Option StoreErr) (limit : Nat := 5) :
    OpResult (List PostDetail) :=
  match fault with
  | some _ =>
    { result := .error (.internal "Failed to fetch posts")
      db := db
      effects := [.cacheQuery postsCacheStrategy,
                  .logError "Error fetching posts: "] }
  | none =>
    { result := .ok (((sortByDesc (fun p => p.createdAt) db.posts).take
        limit).map (mkPostDetail db))
      db := db
      effects := [.cacheQuery postsCacheStrategy] }

/-- The record `getUserById` returns when the user exists. -/
def mkUserDetail (db : DB) (u : User) : UserDetail :=
  { user := u
    posts := sortByDesc (fun p => p.createdAt) (userPosts db u.id)
    comments := (sortByDesc (fun c => c.createdAt)
      (userComments db u.id)).take 10
    postCount := (userPosts db u.id).length
    commentCount := (userComments db u.id).length }

/-- `getUserById(id)`: one user with posts newest-first, the 10 most
recent comments newest-first and counts, under the 30 s fresh / 60 s stale
strategy tagged `user_<id>`.  A missing row throws
`Error("User not found")`; the catch block logs every error and re-throws
it unchanged (`throw error`), so a store failure reaches the caller as the
original store error. -/
def getUserById (db : DB) (id : String) (fault : Option StoreErr) :
    OpResult UserDetail :=
  match fault with
  | some e =>
    { result := .error (.store e)
      db := db
      effects := [.cacheQuery (userByIdCacheStrategy id),
                  .logError ("Error fetching user with ID " ++ id ++ ":")] }
  | none =>
    match findUser db id with
    | none =>
      { result := .error (.notFound "User not found")
        db := db
        effects := [.cacheQuery (userByIdCacheStrategy id),
                    .logError ("Error fetching user with ID " ++ id ++ ":")] }
    | some u =>
      { result := .ok (mkUserDetail db u)
        db := db
        effects := [.cacheQuery (userByIdCacheStrategy id)] }

/-- Argument object of `createUser`. -/
structure CreateUserInput where
  email : String
  name : Option String
deriving Repr, DecidableEq

/-- `createUser({email, name})`: rejects an empty email before any store
call; a unique-constraint violation on email (the store's `P2002` error,
raised deterministically on a duplicate email or injected via `fault`) is
mapped to `Error("A user with this email already exists")`; any other
store failure is replaced by the generic `Error("Failed to create user")`
without logging; on success the row is inserted and the home page
revalidated. -/
def createUser (db : DB) (input : CreateUserInput) (newId : String)
    (now : Nat) (fault : Option StoreErr) : OpResult User :=
  if input.email = "" then
    { result := .error (.validation "Email is required")
      db := db, effects := [] }
  else if db.users.any (fun u => u.email == input.email) then
    { result := .error (.conflict "A user with this email already exists")
      db := db, effects := [] }
  else
    match fault with
    | some e =>
      if e.code = "P2002" then
        { result := .error (.conflict "A user with this email already exists")
          db := db, effects := [] }
      else
        { result := .error (.internal "Failed to create user")
          db := db, effects := [] }
    | none =>
      let u : User :=
        { id := newId, email := input.email, name := input.name
          createdAt := now }
      { result := .ok u
        db := { db with users := db.users ++ [u] }
        effects := [.revalidatePath "/"] }

/-- Argument object of `createPost`. -/
structure CreatePostInput where
  title : String
  content : Option String
  authorId : String
  published : Bool := false
deriving Repr, DecidableEq

/-- A post with its included `author` relation (`include: {author: true}`). -/
structure PostWithAuthor where
  post : Post
  author : Option User
deriving Repr, DecidableEq

/-- `createPost({title, content, authorId, published})`: rejects a missing
title or author id before any store call; checks the author exists before
the insert and throws `Error("Author not found")` otherwise; the catch
block logs every error from the `try` block and re-throws it unchanged, so
a store failure on the insert reaches the caller as the original store
error; on success the post is inserted and the home page revalidated. -/
def createPost (db : DB) (input : CreatePostInput) (newId : String)
    (now : Nat) (fault : Option StoreErr) : OpResult PostWithAuthor :=
  if input.title = "" ∨ input.authorId = "" then
    { result := .error (.validation "Title and author are required")
      db := db, effects := [] }
  else
    match findUser db input.authorId with
    | none =>
      { result := .error (.notFound "Author not found")
        db := db, effects := [.logError "Error creating post:"] }
    | some a =>
      match fault with
      | some e =>
        { result := .error (.store e)
          db := db, effects := [.logError "Error creating post:"] }
      | none =>
        let p : Post :=
          { id := newId, title := input.title, content := input.content
            published := input.published, authorId := input.authorId
            createdAt := now }
        { result := .ok { post := p, author := some a }
          db := { db with posts := db.posts ++ [p] }
          effects := [.revalidatePath "/"] }

/-- Argument object of `createComment`. -/
structure CreateCommentInput where
  content : String
  postId : String
  authorId : String
deriving Repr, DecidableEq

/-- A comment with its included `author` and `post` relations. -/
structure CommentWithRefs where
  comment : Comment
  author : Option User
  post : Option Post
deriving Repr, DecidableEq

/-- `createComment({content, postId, authorId})`: rejects a missing field
before any store call; checks the post (first) and the author (second)
exist before the insert, throwing `Error("Post not found")` or
`Error("Author not found")`; after a successful insert, revalidates the
home page and invalidates the Accelerate tags `posts_list` and
`user_<authorId>` — both calls are inside the same `try`, so a failure of
either (`revalidateFault`, `invalidateFault`) is logged and re-thrown even
though the row is already inserted; any error from the `try` block is
logged and re-thrown unchanged. -/
def createComment (db : DB) (input : CreateCommentInput) (newId : String)
    (now : Nat) (createFault : Option StoreErr)
    (revalidateFault : Option StoreErr) (invalidateFault : Option StoreErr) :
    OpResult CommentWithRefs :=
  if input.content = "" ∨ input.postId = "" ∨ input.authorId = "" then
    { result := .error (.validation "Content, post, and author are required")
      db := db, effects := [] }
  else
    match findPost db input.postId, findUser db input.authorId with
    | none, _ =>
      { result := .error (.notFound "Post not found")
        db := db, effects := [.logError "Error creating comment:"] }
    | some _, none =>
      { result := .error (.notFound "Author not found")
        db := db, effects := [.logError "Error creating comment:"] }
    | some p, some a =>
      match createFault with
      | some e =>
        { result := .error (.store e)
          db := db, effects := [.logError "Error creating comment:"] }
      | none =>
        let c : Comment :=
          { id := newId, content := input.content, postId := input.postId
            authorId := input.authorId, createdAt := now }
        let dbAfter : DB := { db with comments := db.comments ++ [c] }
        match revalidateFault with
        | some e =>
          { result := .error (.store e)
            db := dbAfter
            effects := [.logError "Error creating comment:"] }
        | none =>
          match invalidateFault with
          | some e =>
            { result := .error (.store e)
              db := dbAfter
              effects := [.revalidatePath "/",
                          .logError "Error creating comment:"] }
          | none =>
            { result := .ok { comment := c, author := some a, post := some p }
              db := dbAfter
              effects := [.revalidatePath "/",
                          .invalidateTags
                            ["posts_list", "user_" ++ input.authorId]] }

/-- Membership in an insertion step: the inserted element or an old one. -/
theorem mem_insertByDesc {key : α → Nat} {a x : α} :
    ∀ {l : List α}, x ∈ insertByDesc key a l ↔ x = a ∨ x ∈ l := by
  intro l
  induction l with
  | nil => simp [insertByDesc]
  | cons b l ih =>
    by_cases h : key b < key a
    · simp [insertByDesc, h]
    · simp only [insertByDesc, if_neg h, List.mem_cons, ih]
      tauto

/-- Inserting into a descending-sorted list keeps it descending-sorted. -/
theorem sortedByDesc_insertByDesc {key : α → Nat} (a : α) :
    ∀ {l : List α}, SortedByDesc key l →
      SortedByDesc key (insertByDesc key a l) := by
  intro l
  induction l with
  | nil => intro _; simp [insertByDesc, SortedByDesc]
  | cons b l ih =>
    intro h
    rw [SortedByDesc, List.pairwise_cons] at h
    obtain ⟨hb, hl⟩ := h
    by_cases hba : key b < key a
    · rw [SortedByDesc, insertByDesc, if_pos hba, List.pairwise_cons]
      refine ⟨?_, ?_⟩
      · intro y hy
        rcases List.mem_cons.mp hy with rfl | hyl
        · exact Nat.le_of_lt hba
        · exact le_trans (hb y hyl) (Nat.le_of_lt hba)
      · rw [SortedByDesc] at *
        exact List.pairwise_cons.mpr ⟨hb, hl⟩
    · rw [SortedByDesc, insertByDesc, if_neg hba, List.pairwise_cons]
      refine ⟨?_, ih hl⟩
      intro y hy
      rcases mem_insertByDesc.mp hy with rfl | hyl
      · exact Nat.le_of_not_lt hba
      · exact hb y hyl

/-- The result of `sortByDesc` is ordered newest-first. -/
theorem sortedByDesc_sortByDesc (key : α → Nat) :
    ∀ l : List α, SortedByDesc key (sortByDesc key l) := by
  intro l
  induction l with
  | nil => simp [sortByDesc, SortedByDesc]
  | cons a l ih => exact sortedByDesc_insertByDesc a ih

/-- Descending order survives mapping when the key factors through the
map. -/
theorem sortedByDesc_map {f : α → β} {key : β → Nat} {l : List α}
    (h : SortedByDesc (fun a => key (f a)) l) :
    SortedByDesc key (l.map f) := by
  simpa [SortedByDesc, List.pairwise_map] using h

/-- A prefix of a descending-sorted list is descending-sorted. -/
theorem SortedByDesc.take {key : α → Nat} {l : List α}
    (h : SortedByDesc key l) (n : Nat) : SortedByDesc key (l.take n) :=
  List.Pairwise.sublist (List.take_sublist n l) h

/-- Sample user row used to exercise the operations. -/
def sampleUser : User :=
  { id := "u1", email := "a@x.com", name := some "A", createdAt := 1 }

/-- Sample post row authored by `sampleUser`. -/
def samplePost : Post :=
  { id := "p1", title := "T", content := none, published := false
    authorId := "u1", createdAt := 2 }

/-- Sample store with one user and one post. -/
def sampleDB : DB :=
  { users := [sampleUser], posts := [samplePost], comments := [] }

/-- A sample unanticipated store failure (a connectivity error, not a
unique-constraint violation). -/
def sampleFault : StoreErr :=
  { code := "P1001", message := "Can't reach database server" }

/-- C2: a `createComment` call with all fields present, an existing post
and a non-existent author fails with `NotFound("Author not found")` —
never with the post's not-found error — and inserts nothing, whatever
faults the later call sites would have raised. -/
theorem c2_comment_missing_author_notFound
    (db : DB) (input : CreateCommentInput) (newId : String) (now : Nat)
    (cf rf iv : Option StoreErr) (p : Post)
    (hc : input.content ≠ "") (hp : input.postId ≠ "")
    (ha : input.authorId ≠ "")
    (hpost : findPost db input.postId = some p)
    (hauthor : findUser db input.authorId = none) :
    (createComment db input newId now cf rf iv).result =
      .error (.notFound "Author not found") ∧
    (createComment db input newId now cf rf iv).db = db := by
  simp [createComment, hc, hp, ha, hpost, hauthor]

/-- Witness for C2: in `sampleDB` post `p1` exists and author `zz` does
not; the call reports the author as missing and leaves the store
unchanged. -/
theorem c2_comment_missing_author_notFound_witness :
    (createComment sampleDB ⟨"hi", "p1", "zz"⟩ "c1" 9 none none none).result =
      .error (.notFound "Author not found") ∧
    (createComment sampleDB ⟨"hi", "p1", "zz"⟩ "c1" 9 none none none).db =
      sampleDB :=
  c2_comment_missing_author_notFound sampleDB ⟨"hi", "p1", "zz"⟩ "c1" 9
    none none none samplePost (by decide) (by decide) (by decide) rfl rfl

/-- C3: a `createPost` call with title and author id present but no
matching user fails with `NotFound("Author not found")` and inserts
nothing; the conclusion holds for every insert-site fault, because the
existence check precedes the insert. -/
theorem c3_post_missing_author_notFound
    (db : DB) (input : CreatePostInput) (newId : String) (now : Nat)
    (fault : Option StoreErr)
    (ht : input.title ≠ "") (ha : input.authorId ≠ "")
    (hauthor : findUser db input.authorId = none) :
    (createPost db input newId now fault).result =
      .error (.notFound "Author not found") ∧
    (createPost db input newId now fault).db = db := by
  simp [createPost, ht, ha, hauthor]

/-- Witness for C3: creating a post for the unknown author
`does-not-exist` fails with the author's not-found error and leaves the
store unchanged. -/
theorem c3_post_missing_author_notFound_witness :
    (createPost sampleDB ⟨"T2", none, "does-not-exist", false⟩ "p2" 9
      (some sampleFault)).result = .error (.notFound "Author not found") ∧
    (createPost sampleDB ⟨"T2", none, "does-not-exist", false⟩ "p2" 9
      (some sampleFault)).db = sampleDB :=
  c3_post_missing_author_notFound sampleDB ⟨"T2", none, "does-not-exist", false⟩
    "p2" 9 (some sampleFault) (by decide) (by decide) rfl

/-- C9: on a validation failure each create operation raises the
`ValidationError` before any store query, revalidation or invalidation:
the store is unchanged and no effect at all is emitted, for every fault
the later call sites would have raised. -/
theorem c9_validation_before_effects :
    (∀ (db : DB) (input : CreateUserInput) (newId : String) (now : Nat)
        (fault : Option StoreErr), input.email = "" →
      (createUser db input newId now fault).result =
        .error (.validation "Email is required") ∧
      (createUser db input newId now fault).db = db ∧
      (createUser db input newId now fault).effects = []) ∧
    (∀ (db : DB) (input : CreatePostInput) (newId : String) (now : Nat)
        (fault : Option StoreErr), input.title = "" ∨ input.authorId = "" →
      (createPost db input newId now fault).result =
        .error (.validation "Title and author are required") ∧
      (createPost db input newId now fault).db = db ∧
      (createPost db input newId now fault).effects = []) ∧
    (∀ (db : DB) (input : CreateCommentInput) (newId : String) (now : Nat)
        (cf rf iv : Option StoreErr),
        input.content = "" ∨ input.postId = "" ∨ input.authorId = "" →
      (createComment db input newId now cf rf iv).result =
        .error (.validation "Content, post, and author are required") ∧
      (createComment db input newId now cf rf iv).db = db ∧
      (createComment db input newId now cf rf iv).effects = []) := by
  refine ⟨?_, ?_, ?_⟩
  · intro db input newId now fault h
    simp [createUser, h]
  · intro db input newId now fault h
    simp [createPost, h]
  · intro db input newId now cf rf iv h
    simp [createComment, h]

/-- Witness for C9: each create operation, called on `sampleDB` with its
required field empty, fails with its validation error, leaves the store
unchanged and emits no effect. -/
theorem c9_validation_before_effects_witness :
    ((createUser sampleDB ⟨"", none⟩ "u2" 9 (some sampleFault)).result =
        .error (.validation "Email is required") ∧
      (createUser sampleDB ⟨"", none⟩ "u2" 9 (some sampleFault)).db =
        sampleDB ∧
      (createUser sampleDB ⟨"", none⟩ "u2" 9 (some sampleFault)).effects =
        []) ∧
    ((createPost sampleDB ⟨"", none, "u1", false⟩ "p2" 9
        (some sampleFault)).result =
        .error (.validation "Title and author are required") ∧
      (createPost sampleDB ⟨"", none, "u1", false⟩ "p2" 9
        (some sampleFault)).db = sampleDB ∧
      (createPost sampleDB ⟨"", none, "u1", false⟩ "p2" 9
        (some sampleFault)).effects = []) ∧
    ((createComment sampleDB ⟨"", "p1", "u1"⟩ "c1" 9 (some sampleFault)
        none none).result =
        .error (.validation "Content, post, and author are required") ∧
      (createComment sampleDB ⟨"", "p1", "u1"⟩ "c1" 9 (some sampleFault)
        none none).db = sampleDB ∧
      (createComment sampleDB ⟨"", "p1", "u1"⟩ "c1" 9 (some sampleFault)
        none none).effects = []) :=
  ⟨c9_validation_before_effects.1 sampleDB ⟨"", none⟩ "u2" 9
      (some sampleFault) rfl,
    c9_validation_before_effects.2.1 sampleDB ⟨"", none, "u1", false⟩ "p2" 9
      (some sampleFault) (Or.inl rfl),
    c9_validation_before_effects.2.2 sampleDB ⟨"", "p1", "u1"⟩ "c1" 9
      (some sampleFault) none none (Or.inl rfl)⟩

/-- C10: executions of `createComment` exist in which the comment row is
inserted and yet the call fails: with a fault at the tag-invalidation call
(first conjunct pair) or at the page-regeneration call (second pair) the
operation re-throws the store error although the new row is already in the
store. -/
theorem c10_comment_insert_survives_failure :
    ((createComment sampleDB ⟨"hi", "p1", "u1"⟩ "c1" 9 none none
        (some sampleFault)).result = .error (.store sampleFault) ∧
      (createComment sampleDB ⟨"hi", "p1", "u1"⟩ "c1" 9 none none
        (some sampleFault)).db.comments =
        [{ id := "c1", content := "hi", postId := "p1", authorId := "u1"
           createdAt := 9 }]) ∧
    ((createComment sampleDB ⟨"hi", "p1", "u1"⟩ "c1" 9 none
        (some sampleFault) none).result = .error (.store sampleFault) ∧
      (createComment sampleDB ⟨"hi", "p1", "u1"⟩ "c1" 9 none
        (some sampleFault) none).db.comments =
        [{ id := "c1", content := "hi", postId := "p1", authorId := "u1"
           createdAt := 9 }]) :=
  ⟨⟨rfl, rfl⟩, rfl, rfl⟩

/-- C6: `createUser` fails with the `ValidationError` on an empty email;
a unique-constraint violation on email — whether raised deterministically
on a duplicate email or signalled by the store as a `P2002` fault — yields
the `Conflict` error `"A user with this email already exists"`, not the
generic failure; and a fault-free call with a fresh email returns the
created row. -/
theorem c6_createUser_validation_conflict_success :
    (∀ (db : DB) (input : CreateUserInput) (newId : String) (now : Nat)
        (fault : Option StoreErr), input.email = "" →
      (createUser db input newId now fault).result =
        .error (.validation "Email is required")) ∧
    (∀ (db : DB) (input : CreateUserInput) (newId : String) (now : Nat)
        (fault : Option StoreErr), input.email ≠ "" →
      db.users.any (fun u => u.email == input.email) = true →
      (createUser db input newId now fault).result =
        .error (.conflict "A user with this email already exists")) ∧
    (∀ (db : DB) (input : CreateUserInput) (newId : String) (now : Nat)
        (e : StoreErr), input.email ≠ "" →
      db.users.any (fun u => u.email == input.email) = false →
      e.code = "P2002" →
      (createUser db input newId now (some e)).result =
        .error (.conflict "A user with this email already exists")) ∧
    (∀ (db : DB) (input : CreateUserInput) (newId : String) (now : Nat),
      input.email ≠ "" →
      db.users.any (fun u => u.email == input.email) = false →
      (createUser db input newId now none).result =
        .ok { id := newId, email := input.email, name := input.name
              createdAt := now } ∧
      (createUser db input newId now none).db.users =
        db.users ++ [{ id := newId, email := input.email, name := input.name
                       createdAt := now }]) := by
  refine ⟨?_, ?_, ?_, ?_⟩
  · intro db input newId now fault h
    simp [createUser, h]
  · intro db input newId now fault h hdup
    simp [createUser, h, hdup]
  · intro db input newId now e h hdup hcode
    simp [createUser, h, hdup, hcode]
  · intro db input newId now h hdup
    simp [createUser, h, hdup]

/-- Witness for C6: the empty email is rejected; re-using `a@x.com` in
`sampleDB` is a conflict; a `P2002` store fault on a fresh email is a
conflict; and a fault-free insert of `b@x.com` succeeds. -/
theorem c6_createUser_validation_conflict_success_witness :
    ((createUser sampleDB ⟨"", none⟩ "u2" 9 none).result =
      .error (.validation "Email is required")) ∧
    ((createUser sampleDB ⟨"a@x.com", none⟩ "u2" 9 none).result =
      .error (.conflict "A user with this email already exists")) ∧
    ((createUser sampleDB ⟨"b@x.com", none⟩ "u2" 9
        (some { code := "P2002", message := "unique constraint" })).result =
      .error (.conflict "A user with this email already exists")) ∧
    ((createUser sampleDB ⟨"b@x.com", none⟩ "u2" 9 none).result =
        .ok { id := "u2", email := "b@x.com", name := none, createdAt := 9 } ∧
      (createUser sampleDB ⟨"b@x.com", none⟩ "u2" 9 none).db.users =
        sampleDB.users ++
          [{ id := "u2", email := "b@x.com", name := none, createdAt := 9 }]) :=
  ⟨c6_createUser_validation_conflict_success.1 sampleDB ⟨"", none⟩ "u2" 9
      none rfl,
    c6_createUser_validation_conflict_success.2.1 sampleDB ⟨"a@x.com", none⟩
      "u2" 9 none (by decide) (by decide),
    c6_createUser_validation_conflict_success.2.2.1 sampleDB
      ⟨"b@x.com", none⟩ "u2" 9 { code := "P2002", message := "unique constraint" }
      (by decide) (by decide) rfl,
    c6_createUser_validation_conflict_success.2.2.2 sampleDB
      ⟨"b@x.com", none⟩ "u2" 9 (by decide) (by decide)⟩

/-- C7: a fault-free `createComment` call with all fields present and both
referenced rows existing returns the created comment, and its effect trace
is exactly the page regeneration of `"/"` followed by the invalidation of
precisely the tags `posts_list` and `user_<authorId>`, both emitted before
the comment is returned. -/
theorem c7_comment_success_invalidation
    (db : DB) (input : CreateCommentInput) (newId : String) (now : Nat)
    (p : Post) (a : User)
    (hc : input.content ≠ "") (hp : input.postId ≠ "")
    (ha : input.authorId ≠ "")
    (hpost : findPost db input.postId = some p)
    (hauthor : findUser db input.authorId = some a) :
    (createComment db input newId now none none none).result =
      .ok { comment := { id := newId, content := input.content
                         postId := input.postId, authorId := input.authorId
                         createdAt := now }
            author := some a, post := some p } ∧
    (createComment db input newId now none none none).effects =
      [.revalidatePath "/",
       .invalidateTags ["posts_list", "user_" ++ input.authorId]] := by
  simp [createComment, hc, hp, ha, hpost, hauthor]

/-- Witness for C7: commenting on `p1` as `u1` in `sampleDB` succeeds and
emits the home-page regeneration plus the invalidation of `posts_list` and
`user_u1`. -/
theorem c7_comment_success_invalidation_witness :
    (createComment sampleDB ⟨"hi", "p1", "u1"⟩ "c1" 9 none none none).result =
      .ok { comment := { id := "c1", content := "hi", postId := "p1"
                         authorId := "u1", createdAt := 9 }
            author := some sampleUser, post := some samplePost } ∧
    (createComment sampleDB ⟨"hi", "p1", "u1"⟩ "c1" 9 none none none).effects =
      [.revalidatePath "/", .invalidateTags ["posts_list", "user_u1"]] :=
  c7_comment_success_invalidation sampleDB ⟨"hi", "p1", "u1"⟩ "c1" 9
    samplePost sampleUser (by decide) (by decide) (by decide) rfl rfl

/-- C8: every read passes its declared cache policy to the cache layer as
the first thing it does: `getUsers` a 60 s fresh window tagged
`users_list`; `getPosts` a 120 s stale-while-revalidate window tagged
`posts_list`; `getUserById` a 30 s fresh window, a 60 s stale window and
the tag `user_<id>` — on every store, every fault and every limit. -/
theorem c8_cache_strategies (db : DB) (fault : Option StoreErr)
    (id : String) (limit : Nat) :
    (getUsers db fault).effects.head? =
      some (.cacheQuery { ttl := some 60, swr := none
                          tags := ["users_list"] }) ∧
    (getPosts db fault limit).effects.head? =
      some (.cacheQuery { ttl := none, swr := some 120
                          tags := ["posts_list"] }) ∧
    (getUserById db id fault).effects.head? =
      some (.cacheQuery { ttl := some 30, swr := some 60
                          tags := ["user_" ++ id] }) := by
  refine ⟨?_, ?_, ?_⟩
  · cases fault <;>
      simp [getUsers, usersCacheStrategy]
  · cases fault <;>
      simp [getPosts, postsCacheStrategy]
  · cases fault with
    | some e => simp [getUserById, userByIdCacheStrategy]
    | none =>
      cases h : findUser db id <;>
        simp [getUserById, userByIdCacheStrategy, h]

@[simp] theorem mkPostDetail_post (db : DB) (p : Post) :
    (mkPostDetail db p).post = p := rfl

@[simp] theorem mkCommentWithAuthor_comment (db : DB) (c : Comment) :
    (mkCommentWithAuthor db c).comment = c := rfl

/-- C4: `getUserById` fails with `NotFound` when no user row matches the
id; when one matches it returns that user with its posts newest-first, at
most its 10 most recent comments newest-first, and the counts of all its
posts and all its comments. -/
theorem c4_getUserById_detail (db : DB) (id : String) :
    (findUser db id = none →
      (getUserById db id none).result =
        .error (.notFound "User not found")) ∧
    (∀ u : User, findUser db id = some u →
      (getUserById db id none).result = .ok (mkUserDetail db u) ∧
      SortedByDesc (fun p => p.createdAt) (mkUserDetail db u).posts ∧
      SortedByDesc (fun c => c.createdAt) (mkUserDetail db u).comments ∧
      (mkUserDetail db u).comments.length ≤ 10 ∧
      (mkUserDetail db u).postCount = (userPosts db u.id).length ∧
      (mkUserDetail db u).commentCount = (userComments db u.id).length) := by
  constructor
  · intro h
    simp [getUserById, h]
  · intro u h
    refine ⟨by simp [getUserById, h], ?_, ?_, ?_, rfl, rfl⟩
    · exact sortedByDesc_sortByDesc _ _
    · exact (sortedByDesc_sortByDesc _ _).take 10
    · simp [mkUserDetail]

/-- Witness for C4: `getUserById` on `sampleDB` reports `zz` as missing,
and returns `u1` with sorted, capped, counted relations. -/
theorem c4_getUserById_detail_witness :
    ((getUserById sampleDB "zz" none).result =
      .error (.notFound "User not found")) ∧
    ((getUserById sampleDB "u1" none).result =
        .ok (mkUserDetail sampleDB sampleUser) ∧
      SortedByDesc (fun p => p.createdAt)
        (mkUserDetail sampleDB sampleUser).posts ∧
      SortedByDesc (fun c => c.createdAt)
        (mkUserDetail sampleDB sampleUser).comments ∧
      (mkUserDetail sampleDB sampleUser).comments.length ≤ 10 ∧
      (mkUserDetail sampleDB sampleUser).postCount =
        (userPosts sampleDB sampleUser.id).length ∧
      (mkUserDetail sampleDB sampleUser).commentCount =
        (userComments sampleDB sampleUser.id).length) :=
  ⟨(c4_getUserById_detail sampleDB "zz").1 rfl,
    (c4_getUserById_detail sampleDB "u1").2 sampleUser rfl⟩

/-- C5: every fault-free `listPosts(limit)` result has at most `limit`
posts ordered by `createdAt` descending, each carrying its author, its
comments newest-first and the count of its comments; calling without the
argument is calling with limit 5. -/
theorem c5_listPosts_limit_order :
    (∀ (db : DB) (limit : Nat) (l : List PostDetail),
      (getPosts db none limit).result = .ok l →
      l.length ≤ limit ∧
      SortedByDesc (fun d => d.post.createdAt) l ∧
      ∀ d ∈ l,
        SortedByDesc (fun cw => cw.comment.createdAt) d.comments ∧
        d.commentCount = (postComments db d.post.id).length ∧
        d.author = findUser db d.post.authorId) ∧
    (∀ db : DB, getPosts db none = getPosts db none 5) := by
  constructor
  · intro db limit l h
    simp only [getPosts, Except.ok.injEq] at h
    subst h
    refine ⟨?_, ?_, ?_⟩
    · rw [List.length_map]
      exact List.length_take_le limit _
    · rw [SortedByDesc, List.pairwise_map]
      simp only [mkPostDetail_post]
      exact List.Pairwise.sublist (List.take_sublist _ _)
        (sortedByDesc_sortByDesc _ _)
    · intro d hd
      obtain ⟨p, _, rfl⟩ := List.mem_map.mp hd
      refine ⟨?_, rfl, rfl⟩
      rw [SortedByDesc, mkPostDetail, List.pairwise_map]
      simp only [mkCommentWithAuthor_comment]
      exact sortedByDesc_sortByDesc _ _
  · intro db
    rfl

/-- Witness for C5: `listPosts(3)` on `sampleDB` returns the single post,
within the limit, sorted, with author and comment count. -/
theorem c5_listPosts_limit_order_witness :
    ([mkPostDetail sampleDB samplePost].length ≤ 3 ∧
      SortedByDesc (fun d => d.post.createdAt)
        [mkPostDetail sampleDB samplePost] ∧
      ∀ d ∈ [mkPostDetail sampleDB samplePost],
        SortedByDesc (fun cw => cw.comment.createdAt) d.comments ∧
        d.commentCount = (postComments sampleDB d.post.id).length ∧
        d.author = findUser sampleDB d.post.authorId) ∧
    getPosts sampleDB none = getPosts sampleDB none 5 :=
  ⟨c5_listPosts_limit_order.1 sampleDB 3 [mkPostDetail sampleDB samplePost]
      rfl,
    c5_listPosts_limit_order.2 sampleDB⟩

/-- C1 fails on the code: on an unanticipated store failure,
`getUserById`, `createPost` and `createComment` end their catch block with
`throw error`, handing the caller the original store error object rather
than a generic one, and `createUser` raises its generic error without
logging.  All four are shown here at concrete inputs. -/
theorem c1_generic_error_counterexample :
    (getUserById sampleDB "u1" (some sampleFault)).result =
      .error (.store sampleFault) ∧
    (createPost sampleDB ⟨"T2", none, "u1", false⟩ "p2" 9
      (some sampleFault)).result = .error (.store sampleFault) ∧
    (createComment sampleDB ⟨"hi", "p1", "u1"⟩ "c1" 9 (some sampleFault)
      none none).result = .error (.store sampleFault) ∧
    (createUser sampleDB ⟨"b@x.com", none⟩ "u2" 9
      (some sampleFault)).result = .error (.internal "Failed to create user") ∧
    (createUser sampleDB ⟨"b@x.com", none⟩ "u2" 9
      (some sampleFault)).effects = [] :=
  ⟨rfl, rfl, rfl, rfl, rfl⟩

/-- C1 as amended: on a store failure that is not locally detected,
`getUsers` and `getPosts` log the failure and raise a generic error;
`createUser` raises a generic error (after mapping `P2002` to the
conflict) without logging; and `getUserById`, `createPost` and
`createComment` log the failure but re-raise the original store error, so
those three do expose the underlying store error to the caller. -/
theorem c1_store_failure_handling :
    (∀ (db : DB) (e : StoreErr),
      (getUsers db (some e)).result =
        .error (.internal "Failed to fetch users") ∧
      .logError "Error fetching users:" ∈ (getUsers db (some e)).effects) ∧
    (∀ (db : DB) (e : StoreErr) (limit : Nat),
      (getPosts db (some e) limit).result =
        .error (.internal "Failed to fetch posts") ∧
      .logError "Error fetching posts: " ∈
        (getPosts db (some e) limit).effects) ∧
    (∀ (db : DB) (id : String) (e : StoreErr),
      (getUserById db id (some e)).result = .error (.store e) ∧
      .logError ("Error fetching user with ID " ++ id ++ ":") ∈
        (getUserById db id (some e)).effects) ∧
    (∀ (db : DB) (input : CreateUserInput) (newId : String) (now : Nat)
        (e : StoreErr), input.email ≠ "" →
      db.users.any (fun u => u.email == input.email) = false →
      e.code ≠ "P2002" →
      (createUser db input newId now (some e)).result =
        .error (.internal "Failed to create user") ∧
      (createUser db input newId now (some e)).effects = []) ∧
    (∀ (db : DB) (input : CreatePostInput) (newId : String) (now : Nat)
        (e : StoreErr) (a : User), input.title ≠ "" → input.authorId ≠ "" →
      findUser db input.authorId = some a →
      (createPost db input newId now (some e)).result = .error (.store e) ∧
      (createPost db input newId now (some e)).effects =
        [.logError "Error creating post:"]) ∧
    (∀ (db : DB) (input : CreateCommentInput) (newId : String) (now : Nat)
        (e : StoreErr) (p : Post) (a : User), input.content ≠ "" →
      input.postId ≠ "" → input.authorId ≠ "" →
      findPost db input.postId = some p →
      findUser db input.authorId = some a →
      (createComment db input newId now (some e) none none).result =
        .error (.store e) ∧
      (createComment db input newId now (some e) none none).effects =
        [.logError "Error creating comment:"]) := by
  refine ⟨?_, ?_, ?_, ?_, ?_, ?_⟩
  · intro db e
    simp [getUsers]
  · intro db e limit
    simp [getPosts]
  · intro db id e
    simp [getUserById]
  · intro db input newId now e h hdup hcode
    simp [createUser, h, hdup, hcode]
  · intro db input newId now e a ht ha hauthor
    simp [createPost, ht, ha, hauthor]
  · intro db input newId now e p a hc hp ha hpost hauthor
    simp [createComment, hc, hp, ha, hpost, hauthor]

/-- Witness for the amended C1: each handling pattern exercised on
`sampleDB` with the connectivity fault `sampleFault`. -/
theorem c1_store_failure_handling_witness :
    ((getUsers sampleDB (some sampleFault)).result =
        .error (.internal "Failed to fetch users") ∧
      .logError "Error fetching users:" ∈
        (getUsers sampleDB (some sampleFault)).effects) ∧
    ((getPosts sampleDB (some sampleFault) 5).result =
        .error (.internal "Failed to fetch posts") ∧
      .logError "Error fetching posts: " ∈
        (getPosts sampleDB (some sampleFault) 5).effects) ∧
    ((getUserById sampleDB "u1" (some sampleFault)).result =
        .error (.store sampleFault) ∧
      .logError ("Error fetching user with ID " ++ "u1" ++ ":") ∈
        (getUserById sampleDB "u1" (some sampleFault)).effects) ∧
    ((createUser sampleDB ⟨"b@x.com", none⟩ "u2" 9
        (some sampleFault)).result =
        .error (.internal "Failed to create user") ∧
      (createUser sampleDB ⟨"b@x.com", none⟩ "u2" 9
        (some sampleFault)).effects = []) ∧
    ((createPost sampleDB ⟨"T2", none, "u1", false⟩ "p2" 9
        (some sampleFault)).result = .error (.store sampleFault) ∧
      (createPost sampleDB ⟨"T2", none, "u1", false⟩ "p2" 9
        (some sampleFault)).effects = [.logError "Error creating post:"]) ∧
    ((createComment sampleDB ⟨"hi", "p1", "u1"⟩ "c1" 9 (some sampleFault)
        none none).result = .error (.store sampleFault) ∧
      (createComment sampleDB ⟨"hi", "p1", "u1"⟩ "c1" 9 (some sampleFault)
        none none).effects = [.logError "Error creating comment:"]) :=
  ⟨c1_store_failure_handling.1 sampleDB sampleFault,
    c1_store_failure_handling.2.1 sampleDB sampleFault 5,
    c1_store_failure_handling.2.2.1 sampleDB "u1" sampleFault,
    c1_store_failure_handling.2.2.2.1 sampleDB ⟨"b@x.com", none⟩ "u2" 9
      sampleFault (by decide) (by decide) (by decide),
    c1_store_failure_handling.2.2.2.2.1 sampleDB ⟨"T2", none, "u1", false⟩
      "p2" 9 sampleFault sampleUser (by decide) (by decide) rfl,
    c1_store_failure_handling.2.2.2.2.2 sampleDB ⟨"hi", "p1", "u1"⟩ "c1" 9
      sampleFault samplePost sampleUser (by decide) (by decide) (by decide)
      rfl rfl⟩

/-- Witness for C8: the three strategies as emitted on `sampleDB`. -/
theorem c8_cache_strategies_witness :
    (getUsers sampleDB none).effects.head? =
      some (.cacheQuery { ttl := some 60, swr := none
                          tags := ["users_list"] }) ∧
    (getPosts sampleDB none 5).effects.head? =
      some (.cacheQuery { ttl := none, swr := some 120
                          tags := ["posts_list"] }) ∧
    (getUserById sampleDB "u1" none).effects.head? =
      some (.cacheQuery { ttl := some 30, swr := some 60
                          tags := ["user_" ++ "u1"] }) :=
  c8_cache_strategies sampleDB none "u1" 5

end Actions
